import Mathlib

/-!
Verification of the AI orchestration layer of the school-butler backend
(`back/app/services/ai_service.py` together with the exception taxonomy of
`back/app/core/exceptions.py`).

The service layer is embedded shallowly:

* Python `dict`s produced by `json.loads` become the inductive `Json` type,
  with objects as association lists (duplicate keys in a JSON text are not
  modelled; `json.loads` keeps the last occurrence, our parser keeps all
  pairs and lookups read the first one, which agrees on every text without
  duplicate keys).
* The remote Gemini call, together with `asyncio.wait_for`, is modelled by
  the `GenOutcome` type: the await either times out, raises an exception
  whose `str()` is some message, or returns a response object with a text.
* Python exceptions in flight inside a `try:` block are `PyExc` values;
  the typed error taxonomy of `exceptions.py` is the `AIErr` type, and
  `AIErr.statusDetail` is `str(e)` of the corresponding `HTTPException`
  (Starlette renders it as "{status_code}: {detail}").
* `datetime` values are `PyDateTime`: absolute seconds plus an optional
  UTC offset in minutes (`none` models a naive datetime).  Comparing two
  naive or two aware datetimes compares the absolute value; comparing a
  naive with an aware one raises the CPython `TypeError` (`pyDtLt`,
  `pyDtLe`), which the schedule validator does not catch.
* numbers are rationals; Python floats and ints are both mapped to `ℚ`
  (so `3` and `3.0` are identified, and the `%.2f` formatting is exact
  rather than binary-float rounded).
-/

namespace SchoolButler

/-! ### Python string helpers -/

/-- whitespace for `str.strip()` and the regex class `\s` (ASCII part). -/
def isPySpace (c : Char) : Bool :=
  c = ' ' || c = '\t' || c = '\n' || c = '\r' || c = '\x0b' || c = '\x0c'

/-- `str.strip()` on the underlying character list. -/
def pyStripList (l : List Char) : List Char :=
  ((l.dropWhile isPySpace).reverse.dropWhile isPySpace).reverse

/-- `str.strip()`. -/
def pyStrip (s : String) : String := String.mk (pyStripList s.data)

/-- Python slicing `s[:n]` (by characters, as Python slices by code point). -/
def strTake (s : String) (n : Nat) : String := String.mk (s.data.take n)

/-- does `n` occur as a contiguous sublist of the second argument?
Models the Python substring test `n in h`. -/
def isSubL (n : List Char) : List Char → Bool
  | [] => n.isEmpty
  | c :: cs => n.isPrefixOf (c :: cs) || isSubL n cs

/-- Python `needle in hay` on strings. -/
def containsSub (needle hay : String) : Bool := isSubL needle.data hay.data

/-- a single quote character, kept out of character-literal syntax. -/
def sq : String := String.singleton (Char.ofNat 39)

/-- wrap a string in single quotes, as Python `repr`/error messages do. -/
def mkq (s : String) : String := sq ++ s ++ sq

/-- Python `str.lower()` (character-wise ASCII lowering). -/
def pyLower (s : String) : String := String.mk (s.data.map Char.toLower)

/-- Python `str.replace`: replace every non-overlapping occurrence of the
pattern, scanning left to right (fuel-indexed so it is structural). -/
def pyReplaceList (pat rep : List Char) : Nat → List Char → List Char
  | 0, l => l
  | _ + 1, [] => []
  | fuel + 1, c :: cs =>
    if pat.isPrefixOf (c :: cs) ∧ pat ≠ [] then
      rep ++ pyReplaceList pat rep fuel ((c :: cs).drop pat.length)
    else c :: pyReplaceList pat rep fuel cs

/-- Python `s.replace(pat, rep)`. -/
def pyReplace (s pat rep : String) : String :=
  String.mk (pyReplaceList pat.data rep.data s.data.length s.data)

/-! ### JSON values (result of `json.loads`) -/

/-- a parsed JSON value. `num` collapses Python ints and floats into `ℚ`. -/
inductive Json where
  | null
  | bool (b : Bool)
  | num (q : ℚ)
  | str (s : String)
  | arr (elems : List Json)
  | obj (fields : List (String × Json))

/-- dict lookup: first binding of the key. -/
def dget : List (String × Json) → String → Option Json
  | [], _ => none
  | (k', v) :: rest, k => if k' = k then some v else dget rest k

/-- Python `d.get(k, default)`. -/
def dgetD (kvs : List (String × Json)) (k : String) (d : Json) : Json :=
  (dget kvs k).getD d

/-- Python `k in d`. -/
def dhas (kvs : List (String × Json)) (k : String) : Bool := (dget kvs k).isSome

/-- Python `d[k] = v`: replace the first binding, or append. -/
def dset : List (String × Json) → String → Json → List (String × Json)
  | [], k, v => [(k, v)]
  | (k', v') :: rest, k, v =>
    if k' = k then (k', v) :: rest else (k', v') :: dset rest k v

/-- Python truthiness of a decoded JSON value. -/
def Json.truthy : Json → Bool
  | .null => false
  | .bool b => b
  | .num q => !(q = 0)
  | .str s => !(s = "")
  | .arr xs => !xs.isEmpty
  | .obj kvs => !kvs.isEmpty

/-- the Python type name of a decoded JSON value, used in `TypeError` texts. -/
def Json.typeName : Json → String
  | .null => "NoneType"
  | .bool _ => "bool"
  | .num _ => "float"
  | .str _ => "str"
  | .arr _ => "list"
  | .obj _ => "dict"

/-- the numeric view Python takes in comparisons: numbers are themselves and
bools are 0 or 1; everything else is not a number. -/
def Json.asPyNum : Json → Option ℚ
  | .num q => some q
  | .bool b => some (if b then 1 else 0)
  | _ => none

/-- numeric coercion with default 0 (used where the Python code has already
established the value is comparable). -/
def Json.coerceNum (j : Json) : ℚ := j.asPyNum.getD 0

/-! ### Number rendering -/

/-- round the fraction `n / d` (with `d > 0`) to the nearest integer, ties
to even (Python float formatting).  Stated on numerator and denominator so
that it reduces in the kernel (the `ℚ` field operations are irreducible). -/
def roundHalfEven (n d : ℤ) : ℤ :=
  let f := n.fdiv d
  let r2 := 2 * (n - f * d)
  if r2 < d then f
  else if d < r2 then f + 1
  else if f % 2 = 0 then f else f + 1

/-- Python `f"{x:.2f}"` (exact decimal rounding; the binary-float rounding
step of CPython is not modelled). -/
def fmt2f (q : ℚ) : String :=
  let n := (roundHalfEven ((q.num.natAbs : ℤ) * 100) (q.den : ℤ)).toNat
  let ip := n / 100
  let fp := n % 100
  (if q.num < 0 then "-" else "") ++ toString ip ++ "." ++
    (if fp < 10 then "0" else "") ++ toString fp

/-- how many times `p` divides `n` (fuel-bounded). -/
def countFac (p : ℕ) : ℕ → ℕ → ℕ
  | 0, _ => 0
  | _ + 1, 0 => 0
  | fuel + 1, n => if n % p = 0 ∧ 2 ≤ p ∧ 2 ≤ n then 1 + countFac p fuel (n / p) else 0

/-- decimal rendering of a rational whose denominator is 2^a·5^b, used for
`str()` of JSON numbers; integers print without a decimal point (Python ints),
other denominators fall back to a fraction (unreachable for decoded JSON). -/
def ratStr (q : ℚ) : String :=
  if q.den = 1 then toString q.num
  else
    let k := max (countFac 2 q.den q.den) (countFac 5 q.den q.den)
    if q.den = 2 ^ countFac 2 q.den q.den * 5 ^ countFac 5 q.den q.den then
      let n := q.num.natAbs * (10 ^ k / q.den)
      (if q.num < 0 then "-" else "") ++ toString (n / 10 ^ k) ++ "." ++
        (let fs := toString (n % 10 ^ k)
         String.mk (List.replicate (k - fs.length) '0') ++ fs)
    else toString q.num ++ "/" ++ toString q.den

/-! ### Python `str()` / `repr()` of decoded JSON values -/

mutual
/-- Python `repr` of a decoded value (string escaping inside `repr` is not
modelled; no claim depends on it). -/
def pyrepr : Json → String
  | .null => "None"
  | .bool b => if b then "True" else "False"
  | .num q => ratStr q
  | .str s => mkq s
  | .arr xs => "[" ++ pyreprList xs ++ "]"
  | .obj kvs => "\x7b" ++ pyreprObj kvs ++ "\x7d"

/-- comma-separated `repr`s of list elements. -/
def pyreprList : List Json → String
  | [] => ""
  | [x] => pyrepr x
  | x :: xs => pyrepr x ++ ", " ++ pyreprList xs

/-- comma-separated `repr`s of dict items. -/
def pyreprObj : List (String × Json) → String
  | [] => ""
  | [(k, v)] => mkq k ++ ": " ++ pyrepr v
  | (k, v) :: kvs => mkq k ++ ": " ++ pyrepr v ++ ", " ++ pyreprObj kvs
end

/-- Python `str()`: identity on strings, `repr` rendering otherwise. -/
def pystr : Json → String
  | .str s => s
  | v => pyrepr v

/-! ### JSON parsing (model of `json.loads`)

The parser is fuel-indexed so that every definition is structural and
kernel-reducible.  It accepts standard JSON; the CPython extensions
`NaN`/`Infinity` are not modelled. -/

/-- JSON insignificant whitespace. -/
def isJsonWs (c : Char) : Bool := c = ' ' || c = '\t' || c = '\n' || c = '\r'

/-- value of a hex digit. -/
def hexVal (c : Char) : Option Nat :=
  if '0' ≤ c ∧ c ≤ '9' then some (c.toNat - 48)
  else if 'a' ≤ c ∧ c ≤ 'f' then some (c.toNat - 87)
  else if 'A' ≤ c ∧ c ≤ 'F' then some (c.toNat - 55)
  else none

/-- decimal value of a digit string. -/
def digitsVal (ds : List Char) : Nat :=
  ds.foldl (fun n c => n * 10 + (c.toNat - 48)) 0

/-- one string unit after the opening quote: a plain character or an escape.
Returns the decoded character and the rest. -/
def parseOneChar : List Char → Option (Char × List Char)
  | [] => none
  | '\\' :: rest =>
    match rest with
    | [] => none
    | e :: rest2 =>
      if e = '"' then some ('"', rest2)
      else if e = '\\' then some ('\\', rest2)
      else if e = '/' then some ('/', rest2)
      else if e = 'b' then some ('\x08', rest2)
      else if e = 'f' then some ('\x0c', rest2)
      else if e = 'n' then some ('\n', rest2)
      else if e = 'r' then some ('\r', rest2)
      else if e = 't' then some ('\t', rest2)
      else if e = 'u' then
        match rest2 with
        | h1 :: h2 :: h3 :: h4 :: rest3 =>
          match hexVal h1, hexVal h2, hexVal h3, hexVal h4 with
          | some a, some b, some c, some d =>
            some (Char.ofNat (((a * 16 + b) * 16 + c) * 16 + d), rest3)
          | _, _, _, _ => none
        | _ => none
      else none
  | c :: rest => if c = '"' ∨ c.toNat < 32 then none else some (c, rest)

/-- string body after the opening quote, up to the closing quote. -/
def parseJStringAux : Nat → List Char → Option (List Char × List Char)
  | 0, _ => none
  | _ + 1, [] => none
  | fuel + 1, c :: cs =>
    if c = '"' then some ([], cs)
    else
      match parseOneChar (c :: cs) with
      | none => none
      | some (ch, rem) =>
        match parseJStringAux fuel rem with
        | some (out, r) => some (ch :: out, r)
        | none => none

/-- a JSON number (sign, integer part, optional fraction and exponent). -/
def parseNumber (l : List Char) : Option (ℚ × List Char) :=
  let signRes : Bool × List Char :=
    match l with | '-' :: r => (true, r) | _ => (false, l)
  let neg := signRes.1
  let l1 := signRes.2
  let ds := l1.takeWhile Char.isDigit
  if ds.isEmpty then none
  else if 1 < ds.length ∧ ds.headD '1' = '0' then none
  else
    let l2 := l1.drop ds.length
    let fracRes : Option (List Char × List Char) :=
      match l2 with
      | '.' :: r =>
        let fs := r.takeWhile Char.isDigit
        if fs.isEmpty then none else some (fs, r.drop fs.length)
      | _ => some ([], l2)
    match fracRes with
    | none => none
    | some (fs, l3) =>
      let expRes : Option (Bool × List Char × List Char) :=
        match l3 with
        | 'e' :: r | 'E' :: r =>
          let esign : Bool × List Char :=
            match r with
            | '-' :: rr => (true, rr)
            | '+' :: rr => (false, rr)
            | _ => (false, r)
          let es := esign.2.takeWhile Char.isDigit
          if es.isEmpty then none
          else some (esign.1, es, esign.2.drop es.length)
        | _ => some (false, [], l3)
      match expRes with
      | none => none
      | some (eneg, es, l4) =>
        let mantNum : ℕ := digitsVal ds * 10 ^ fs.length + digitsVal fs
        let e := digitsVal es
        let num : ℕ := if eneg then mantNum else mantNum * 10 ^ e
        let den : ℕ := if eneg then 10 ^ (fs.length + e) else 10 ^ fs.length
        some (mkRat (if neg then -(num : ℤ) else (num : ℤ)) den, l4)

mutual
/-- a JSON value (input is expected to start at the value, no leading
whitespace). -/
def parseValue : Nat → List Char → Option (Json × List Char)
  | 0, _ => none
  | fuel + 1, l =>
    match l with
    | [] => none
    | 't' :: r => if ['r', 'u', 'e'].isPrefixOf r then some (.bool true, r.drop 3) else none
    | 'f' :: r => if ['a', 'l', 's', 'e'].isPrefixOf r then some (.bool false, r.drop 4) else none
    | 'n' :: r => if ['u', 'l', 'l'].isPrefixOf r then some (.null, r.drop 3) else none
    | '"' :: r =>
      match parseJStringAux (r.length + 1) r with
      | some (cs, rest) => some (.str (String.mk cs), rest)
      | none => none
    | '[' :: r =>
      let r1 := r.dropWhile isJsonWs
      match r1 with
      | ']' :: rest => some (.arr [], rest)
      | _ =>
        match parseElems fuel r1 with
        | some (xs, rest) => some (.arr xs, rest)
        | none => none
    | '\x7b' :: r =>
      let r1 := r.dropWhile isJsonWs
      match r1 with
      | '\x7d' :: rest => some (.obj [], rest)
      | _ =>
        match parseMembers fuel r1 with
        | some (kvs, rest) => some (.obj kvs, rest)
        | none => none
    | _ =>
      match parseNumber l with
      | some (q, rest) => some (.num q, rest)
      | none => none

/-- the elements of a non-empty JSON array, up to and including `]`. -/
def parseElems : Nat → List Char → Option (List Json × List Char)
  | 0, _ => none
  | fuel + 1, l =>
    match parseValue fuel l with
    | none => none
    | some (v, rest) =>
      match rest.dropWhile isJsonWs with
      | ',' :: r2 =>
        match parseElems fuel (r2.dropWhile isJsonWs) with
        | some (xs, rest2) => some (v :: xs, rest2)
        | none => none
      | ']' :: r2 => some ([v], r2)
      | _ => none

/-- the members of a non-empty JSON object, up to and including the closing
brace. -/
def parseMembers : Nat → List Char → Option (List (String × Json) × List Char)
  | 0, _ => none
  | fuel + 1, l =>
    match l with
    | '"' :: r =>
      match parseJStringAux (r.length + 1) r with
      | none => none
      | some (kcs, rest) =>
        match rest.dropWhile isJsonWs with
        | ':' :: r2 =>
          match parseValue fuel (r2.dropWhile isJsonWs) with
          | none => none
          | some (v, rest2) =>
            match rest2.dropWhile isJsonWs with
            | ',' :: r4 =>
              match parseMembers fuel (r4.dropWhile isJsonWs) with
              | some (kvs, rest3) => some ((String.mk kcs, v) :: kvs, rest3)
              | none => none
            | '\x7d' :: r4 => some ([(String.mk kcs, v)], r4)
            | _ => none
        | _ => none
    | _ => none
end

/-- model of `json.loads`: parse one value surrounded by whitespace. -/
def jsonParse (s : String) : Option Json :=
  match parseValue (s.data.length + 2) (s.data.dropWhile isJsonWs) with
  | some (v, rest) => if (rest.dropWhile isJsonWs).isEmpty then some v else none
  | none => none

/-! ### Datetimes

A `datetime` is modelled as absolute seconds plus an optional UTC offset in
minutes (`none` = naive; its `abs` is then the literal local time).  The
`fromisoformat` model accepts the canonical subset
`YYYY-MM-DD[{T,space}HH:MM[:SS][±HH:MM]]` (after the service has replaced
`Z` by `+00:00`); fractional seconds and other pre-3.11 niceties are not
modelled. -/

structure PyDateTime where
  abs : ℤ
  off : Option ℤ
deriving DecidableEq

/-- Gregorian leap year. -/
def isLeap (y : ℤ) : Bool := y % 4 = 0 ∧ (¬ y % 100 = 0 ∨ y % 400 = 0)

/-- length of a month. -/
def daysInMonth (y : ℤ) (m : ℕ) : ℕ :=
  if m = 2 then (if isLeap y then 29 else 28)
  else if m = 4 ∨ m = 6 ∨ m = 9 ∨ m = 11 then 30
  else 31

/-- days since 1970-01-01 of a civil date (Hinnant's algorithm; all interior
divisions act on non-negative values for the years `≥ 1` that the parser
admits). -/
def civilToDays (y : ℤ) (m d : ℕ) : ℤ :=
  let y' : ℤ := if m ≤ 2 then y - 1 else y
  let era : ℤ := (if 0 ≤ y' then y' else y' - 399).ediv 400
  let yoe : ℤ := y' - era * 400
  let doy : ℤ := (153 * ((m : ℤ) + (if 2 < m then -3 else 9)) + 2).ediv 5 + d - 1
  let doe : ℤ := yoe * 365 + yoe.ediv 4 - yoe.ediv 100 + doy
  era * 146097 + doe - 719468

/-- civil date of a day count since 1970-01-01 (inverse of `civilToDays`). -/
def daysToCivil (z0 : ℤ) : ℤ × ℕ × ℕ :=
  let z := z0 + 719468
  let era : ℤ := (if 0 ≤ z then z else z - 146096).ediv 146097
  let doe : ℤ := z - era * 146097
  let yoe : ℤ := (doe - doe.ediv 1460 + doe.ediv 36524 - doe.ediv 146096).ediv 365
  let y : ℤ := yoe + era * 400
  let doy : ℤ := doe - (365 * yoe + yoe.ediv 4 - yoe.ediv 100)
  let mp : ℤ := (5 * doy + 2).ediv 153
  let d : ℤ := doy - (153 * mp + 2).ediv 5 + 1
  let m : ℤ := if mp < 10 then mp + 3 else mp - 9
  (if m ≤ 2 then y + 1 else y, m.toNat, d.toNat)

/-- local seconds of a civil datetime. -/
def civilToSecs (y : ℤ) (mo d hh mi ss : ℕ) : ℤ :=
  civilToDays y mo d * 86400 + hh * 3600 + mi * 60 + ss

/-- a fixed-width two-digit number. -/
def digit2 : List Char → Option (Nat × List Char)
  | a :: b :: r =>
    if a.isDigit ∧ b.isDigit then some ((a.toNat - 48) * 10 + (b.toNat - 48), r)
    else none
  | _ => none

/-- a fixed-width four-digit number. -/
def digit4 : List Char → Option (Nat × List Char)
  | a :: b :: c :: d :: r =>
    if a.isDigit ∧ b.isDigit ∧ c.isDigit ∧ d.isDigit then
      some (((a.toNat - 48) * 1000 + (b.toNat - 48) * 100 +
             (c.toNat - 48) * 10 + (d.toNat - 48)), r)
    else none
  | _ => none

/-- trailing UTC offset `±HH:MM`, or nothing; must consume the rest. -/
def parseOffset : List Char → Option (Option ℤ)
  | [] => some none
  | s :: r =>
    if s = '+' ∨ s = '-' then
      match digit2 r with
      | some (oh, ':' :: r3) =>
        match digit2 r3 with
        | some (om, []) =>
          if oh < 24 ∧ om < 60 then
            some (some ((if s = '-' then -1 else 1) * (oh * 60 + om)))
          else none
        | _ => none
      | _ => none
    else none

/-- assemble a datetime from civil components and an optional offset. -/
def mkPyDateTime (y : ℤ) (mo d hh mi ss : ℕ) : Option ℤ → PyDateTime
  | none => ⟨civilToSecs y mo d hh mi ss, none⟩
  | some o => ⟨civilToSecs y mo d hh mi ss - o * 60, some o⟩

/-- time-of-day part after the date and separator. -/
def parseIsoTime (y : ℤ) (mo d : ℕ) (l : List Char) : Option PyDateTime :=
  match digit2 l with
  | some (hh, ':' :: r7) =>
    match digit2 r7 with
    | some (mi, r8) =>
      match r8 with
      | ':' :: r8' =>
        match digit2 r8' with
        | some (ss, r9) =>
          if hh ≤ 23 ∧ mi ≤ 59 ∧ ss ≤ 59 then
            (parseOffset r9).map (mkPyDateTime y mo d hh mi ss)
          else none
        | none => none
      | _ =>
        if hh ≤ 23 ∧ mi ≤ 59 then
          (parseOffset r8).map (mkPyDateTime y mo d hh mi 0)
        else none
    | _ => none
  | _ => none

/-- model of `datetime.fromisoformat` on the canonical subset. -/
def parseIso (s : String) : Option PyDateTime :=
  match digit4 s.data with
  | some (y, '-' :: r1) =>
    match digit2 r1 with
    | some (mo, '-' :: r3) =>
      match digit2 r3 with
      | some (d, r4) =>
        if 1 ≤ y ∧ 1 ≤ mo ∧ mo ≤ 12 ∧ 1 ≤ d ∧ d ≤ daysInMonth y mo then
          match r4 with
          | [] => some ⟨civilToSecs y mo d 0 0 0, none⟩
          | sep :: r5 =>
            if sep = 'T' ∨ sep = ' ' then parseIsoTime y mo d r5 else none
        else none
      | none => none
    | _ => none
  | _ => none

/-- a number padded to two digits. -/
def pad2 (n : ℕ) : String := (if n < 10 then "0" else "") ++ toString n

/-- a number padded to four digits. -/
def pad4 (n : ℕ) : String :=
  (if n < 10 then "000" else if n < 100 then "00" else if n < 1000 then "0" else "")
    ++ toString n

/-- model of `datetime.isoformat` (microseconds are always zero here). -/
def isoformat (t : PyDateTime) : String :=
  let o := t.off.getD 0
  let loc := t.abs + o * 60
  let days := loc.fdiv 86400
  let sod := (loc - days * 86400).toNat
  let ymd := daysToCivil days
  let base := pad4 ymd.1.toNat ++ "-" ++ pad2 ymd.2.1 ++ "-" ++ pad2 ymd.2.2 ++ "T" ++
    pad2 (sod / 3600) ++ ":" ++ pad2 (sod % 3600 / 60) ++ ":" ++ pad2 (sod % 60)
  match t.off with
  | none => base
  | some o2 =>
    base ++ (if o2 < 0 then "-" else "+") ++
      pad2 (o2.natAbs / 60) ++ ":" ++ pad2 (o2.natAbs % 60)

/-! ### Error taxonomy (`back/app/core/exceptions.py`) -/

/-- the custom exception classes raised by the AI service. -/
inductive AIErr where
  | timeoutE
  | rateLimitE
  | parsingE (detail : String)
  | responseE
  | invalidDateTimeE (detail : String)
  | invalidPriorityE
  | lowConfidenceE (confidence : ℚ)
deriving DecidableEq

/-- Python `str(e)` of the exception: Starlette's `HTTPException.__str__`
renders "status_code: detail", with the status codes and details fixed in
`exceptions.py`. -/
def AIErr.statusDetail : AIErr → String
  | .timeoutE => "503: AI service request timed out. Please try again."
  | .rateLimitE => "503: AI service rate limit exceeded. Please try again later."
  | .parsingE d => "503: " ++ d
  | .responseE => "503: AI service returned invalid response"
  | .invalidDateTimeE d => "422: " ++ d
  | .invalidPriorityE => "422: Priority must be between 1 and 5"
  | .lowConfidenceE c =>
    "422: AI confidence too low (" ++ fmt2f c ++ "). Please provide more specific input."

/-- an exception in flight inside a `try:` block: the `asyncio.TimeoutError`
of `wait_for`, one of the service's own typed exceptions, or any other
exception carrying its `str()`. -/
inductive PyExc where
  | timeoutPy
  | ai (e : AIErr)
  | generic (msg : String)
deriving DecidableEq

/-- `str(e)` of an in-flight exception (`str(asyncio.TimeoutError())` is
empty; it is never inspected because that clause is matched first). -/
def PyExc.strOf : PyExc → String
  | .timeoutPy => ""
  | .ai e => e.statusDetail
  | .generic m => m

/-- one behaviour of the awaited remote generation call
(`asyncio.wait_for(self._generate_content_async(prompt), timeout=30)`):
the deadline fires, the call raises (with the given `str()`), or a response
object with text is returned. -/
inductive GenOutcome where
  | timeout
  | failure (msg : String)
  | response (text : String)
deriving DecidableEq

/-! ### Response extraction (`AIService._extract_json`) -/

/-- the backtick character (kept out of character-literal syntax). -/
def btick : Char := Char.ofNat 96

/-- the characters of "```". -/
def fence3L : List Char := [btick, btick, btick]

/-- the characters of "```json". -/
def fenceJsonL : List Char := [btick, btick, btick, 'j', 's', 'o', 'n']

/-- the characters of a closing fence on its own line, "\n```". -/
def nlFenceL : List Char := ['\n', btick, btick, btick]

/-- one pass of `re.sub(r"```json\s*|\s*```", "", text)`, fuel-indexed so it
is structural.  At each position the first alternative (three backticks,
`json`, then greedy whitespace) is tried, then the second (greedy whitespace
then three backticks); a match is removed and scanning resumes after it. -/
def stripFencesGo : Nat → List Char → List Char
  | _, [] => []
  | 0, c :: cs => c :: cs
  | fuel + 1, c :: cs =>
    if fenceJsonL.isPrefixOf (c :: cs) then
      stripFencesGo fuel (((c :: cs).drop 7).dropWhile isPySpace)
    else
      let ws := (c :: cs).takeWhile isPySpace
      let rest := (c :: cs).drop ws.length
      if fence3L.isPrefixOf rest then stripFencesGo fuel (rest.drop 3)
      else c :: stripFencesGo fuel cs

/-- the `re.sub` call of `_extract_json` on a character list. -/
def stripFencesList (l : List Char) : List Char := stripFencesGo l.length l

/-- `AIService._extract_json`: strip markdown code fences, strip whitespace,
then `json.loads`; a decode failure raises
`GeminiParsingError("Invalid JSON in response")`. -/
def extract_json (text : String) : Except AIErr Json :=
  match jsonParse (String.mk (pyStripList (stripFencesList text.data))) with
  | some v => .ok v
  | none => .error (.parsingE "Invalid JSON in response")

/-! ### Domain validation (`AIService._validate_parsed_schedule`) -/

/-- the chained comparison `1 <= priority <= 5` on `data.get("priority", 3)`;
non-numeric values raise a `TypeError`. -/
def pyPriorityCheck (v : Json) : Except PyExc Bool :=
  match v.asPyNum with
  | some x => .ok (decide (1 ≤ x ∧ x ≤ 5))
  | none =>
    .error (.generic (mkq "<=" ++ " not supported between instances of " ++
      mkq "int" ++ " and " ++ mkq v.typeName))

/-- the comparison `confidence < 0.7` on `data.get("confidence", 0)`;
non-numeric values raise a `TypeError`. -/
def pyLtQ (v : Json) (q : ℚ) : Except PyExc Bool :=
  match v.asPyNum with
  | some x => .ok (decide (x < q))
  | none =>
    .error (.generic (mkq "<" ++ " not supported between instances of " ++
      mkq v.typeName ++ " and " ++ mkq "float"))

/-- the `str()` of the `TypeError` CPython raises when a naive datetime is
compared with an aware one. -/
def naiveAwareMsg : String :=
  "can" ++ sq ++ "t compare offset-naive and offset-aware datetimes"

/-- Python `a < b` on datetimes: a naive operand and an aware one raise
`TypeError`; two naive values compare by wall clock and two aware values by
instant, which is the comparison of `abs` in both cases. -/
def pyDtLt (a b : PyDateTime) : Except PyExc Bool :=
  if a.off.isNone = b.off.isNone then .ok (decide (a.abs < b.abs))
  else .error (.generic naiveAwareMsg)

/-- Python `a <= b` on datetimes, with the same naive/aware `TypeError`. -/
def pyDtLe (a b : PyDateTime) : Except PyExc Bool :=
  if a.off.isNone = b.off.isNone then .ok (decide (a.abs ≤ b.abs))
  else .error (.generic naiveAwareMsg)

/-- the two temporal sanity checks of the start block:
`start_time < current_time - timedelta(hours=1)` and
`start_time > current_time + timedelta(days=365)` (timedelta arithmetic
keeps the tzinfo of `current_time`).  The naive/aware `TypeError` is not
caught by the surrounding `except (ValueError, AttributeError)` and so
propagates. -/
def checkStartWindow (t now : PyDateTime) : Except PyExc PyDateTime :=
  match pyDtLt t ⟨now.abs - 3600, now.off⟩ with
  | .error e => .error e
  | .ok true => .error (.ai (.invalidDateTimeE "Schedule time is in the past"))
  | .ok false =>
    match pyDtLt ⟨now.abs + 365 * 86400, now.off⟩ t with
    | .error e => .error e
    | .ok true => .error (.ai (.invalidDateTimeE "Schedule time is too far in the future"))
    | .ok false => .ok t

/-- the `start_time` block of `_validate_parsed_schedule`: skipped when the
value is falsy; a truthy non-string raises `AttributeError` at `.replace`,
caught and turned into the format error; then `fromisoformat`, the window
checks, and normalisation via `isoformat`. -/
def validateStartTime (kvs : List (String × Json)) (now : PyDateTime) :
    Except PyExc (List (String × Json)) :=
  match dgetD kvs "start_time" Json.null with
  | Json.str s =>
    if s = "" then .ok kvs
    else
      match parseIso (pyReplace s "Z" "+00:00") with
      | none => .error (.ai (.invalidDateTimeE "Invalid start_time format"))
      | some t =>
        match checkStartWindow t now with
        | .error e => .error e
        | .ok t' => .ok (dset kvs "start_time" (Json.str (isoformat t')))
  | v =>
    if v.truthy then .error (.ai (.invalidDateTimeE "Invalid start_time format"))
    else .ok kvs

/-- the `end_time` block: `origStart` is the value the Python local
`start_time_str` still holds (read before the start block rewrote the
dict).  The comparison `end_time <= start_time` has the naive/aware
`TypeError`, which escapes the `except (ValueError, AttributeError)`. -/
def validateEndTime (origStart : Json) (kvs : List (String × Json)) :
    Except PyExc (List (String × Json)) :=
  match dgetD kvs "end_time" Json.null with
  | Json.str s =>
    if s = "" then .ok kvs
    else
      match parseIso (pyReplace s "Z" "+00:00") with
      | none => .error (.ai (.invalidDateTimeE "Invalid end_time format"))
      | some e =>
        if origStart.truthy then
          match dget kvs "start_time" with
          | some (Json.str ns) =>
            match parseIso (pyReplace ns "Z" "+00:00") with
            | none => .error (.ai (.invalidDateTimeE "Invalid end_time format"))
            | some st =>
              match pyDtLe e st with
              | .error e2 => .error e2
              | .ok true =>
                .error (.ai (.invalidDateTimeE "End time must be after start time"))
              | .ok false => .ok (dset kvs "end_time" (Json.str (isoformat e)))
          | some _ => .error (.ai (.invalidDateTimeE "Invalid end_time format"))
          | none => .error (.generic (mkq "start_time"))
        else .ok (dset kvs "end_time" (Json.str (isoformat e)))
  | v =>
    if v.truthy then .error (.ai (.invalidDateTimeE "Invalid end_time format"))
    else .ok kvs

/-- the description part of the text-field sanitisation:
`if "description" in data: data["description"] = str(data["description"])[:1000]`. -/
def sanitizeDescription (kvs : List (String × Json)) : List (String × Json) :=
  if dhas kvs "description" then
    dset kvs "description" (Json.str (strTake (pystr (dgetD kvs "description" Json.null)) 1000))
  else kvs

/-- the text-field sanitisation: `data["title"] = str(data.get("title", ""))[:255]`
and, when present, the description truncation. -/
def sanitizeText (kvs : List (String × Json)) : List (String × Json) :=
  sanitizeDescription
    (dset kvs "title" (Json.str (strTake (pystr (dgetD kvs "title" (Json.str ""))) 255)))

/-- `AIService._validate_parsed_schedule`. -/
def validate_parsed_schedule (kvs : List (String × Json)) (now : PyDateTime) :
    Except PyExc (List (String × Json)) :=
  match pyPriorityCheck (dgetD kvs "priority" (Json.num 3)) with
  | .error e => .error e
  | .ok false => .error (.ai .invalidPriorityE)
  | .ok true =>
    match validateStartTime kvs now with
    | .error e => .error e
    | .ok kvs1 =>
      match validateEndTime (dgetD kvs "start_time" Json.null) kvs1 with
      | .error e => .error e
      | .ok kvs2 => .ok (sanitizeText kvs2)

/-! ### The four public operations of `AIService`

Each operation is split into the body of its `try:` block (an
`Except PyExc _`) and the translation its `except` clauses perform.  The
prompt string built before the call is consumed only by the remote model,
whose whole behaviour is quantified by the `GenOutcome` argument, so the
operations are parameterised by the outcome directly. -/

/-- the `try:` body of `parse_schedule_text`: await the call, extract JSON,
gate on `data.get("confidence", 0) < 0.7`, then validate. -/
def parse_attempt (out : GenOutcome) (now : PyDateTime) : Except PyExc Json :=
  match out with
  | .timeout => .error .timeoutPy
  | .failure msg => .error (.generic msg)
  | .response text =>
    match extract_json text with
    | .error e => .error (.ai e)
    | .ok (Json.obj kvs) =>
      match pyLtQ (dgetD kvs "confidence" (Json.num 0)) (mkRat 7 10) with
      | .error e => .error e
      | .ok true => .error (.ai (.lowConfidenceE (dgetD kvs "confidence" (Json.num 0)).coerceNum))
      | .ok false =>
        match validate_parsed_schedule kvs now with
        | .error e => .error e
        | .ok kvs' => .ok (Json.obj kvs')
    | .ok other =>
      .error (.generic (mkq other.typeName ++ " object has no attribute " ++ mkq "get"))

/-- the `except` clauses of `parse_schedule_text`: timeout first; then any
exception whose `str()` contains "429" or (lowercased) "quota" becomes
`GeminiRateLimitError`; then the three validation exceptions re-raise;
everything else is wrapped in `GeminiParsingError`. -/
def parse_wrap (r : Except PyExc Json) : Except AIErr Json :=
  match r with
  | .ok v => .ok v
  | .error .timeoutPy => .error .timeoutE
  | .error e =>
    if containsSub "429" e.strOf || containsSub "quota" (pyLower e.strOf) then
      .error .rateLimitE
    else
      match e with
      | .ai (.lowConfidenceE c) => .error (.lowConfidenceE c)
      | .ai (.invalidDateTimeE d) => .error (.invalidDateTimeE d)
      | .ai .invalidPriorityE => .error .invalidPriorityE
      | other => .error (.parsingE ("Failed to parse schedule: " ++ other.strOf))

/-- `AIService.parse_schedule_text`. -/
def parse_schedule_text (out : GenOutcome) (now : PyDateTime) : Except AIErr Json :=
  parse_wrap (parse_attempt out now)

/-- the `try:` body of `generate_character_response`: empty or
whitespace-only text raises `GeminiResponseError`, otherwise the text is
stripped and truncated to 500 characters. -/
def gcr_attempt (out : GenOutcome) : Except PyExc String :=
  match out with
  | .timeout => .error .timeoutPy
  | .failure msg => .error (.generic msg)
  | .response text =>
    if text = "" ∨ (pyStrip text).data.length = 0 then .error (.ai .responseE)
    else .ok (strTake (pyStrip text) 500)

/-- `AIService.generate_character_response`: its handlers re-raise timeout
and `GeminiResponseError`, classify a `str(e)` containing "429" (only) as
rate limiting, and turn everything else into `GeminiResponseError`. -/
def generate_character_response (out : GenOutcome) : Except AIErr String :=
  match gcr_attempt out with
  | .ok v => .ok v
  | .error .timeoutPy => .error .timeoutE
  | .error (.ai .responseE) => .error .responseE
  | .error e =>
    if containsSub "429" e.strOf then .error .rateLimitE else .error .responseE

/-- `AIService._validate_plan_task`: require `title` and `start_time`
(Python `in`, which is substring search on strings and membership on lists,
and a `TypeError` on other non-dicts), then truncate the title.  The
`target_date` argument is accepted and ignored, as in the source. -/
def validate_plan_task (task : Json) (_targetDate : ℤ) : Except PyExc Json :=
  match task with
  | .obj kvs =>
    if (dget kvs "title").isNone ∨ (dget kvs "start_time").isNone then
      .error (.ai (.parsingE "Invalid task structure"))
    else
      .ok (.obj (dset kvs "title"
        (Json.str (strTake (pystr (dgetD kvs "title" Json.null)) 255))))
  | .str s =>
    if ¬ containsSub "title" s ∨ ¬ containsSub "start_time" s then
      .error (.ai (.parsingE "Invalid task structure"))
    else .error (.generic "string indices must be integers")
  | .arr xs =>
    if ¬ xs.any (fun e => match e with | .str t => t = "title" | _ => false) ∨
       ¬ xs.any (fun e => match e with | .str t => t = "start_time" | _ => false) then
      .error (.ai (.parsingE "Invalid task structure"))
    else .error (.generic "list indices must be integers or slices, not str")
  | v => .error (.generic ("argument of type " ++ mkq v.typeName ++ " is not iterable"))

/-- the list comprehension `[self._validate_plan_task(t, d) for t in plan]`:
left to right, first exception aborts the whole comprehension. -/
def listValidate (td : ℤ) : List Json → Except PyExc (List Json)
  | [] => .ok []
  | t :: ts =>
    match validate_plan_task t td with
    | .error e => .error e
    | .ok v =>
      match listValidate td ts with
      | .error e => .error e
      | .ok vs => .ok (v :: vs)

/-- the `try:` body of `generate_daily_plan`. -/
def gdp_attempt (out : GenOutcome) (targetDate : ℤ) : Except PyExc (List Json) :=
  match out with
  | .timeout => .error .timeoutPy
  | .failure msg => .error (.generic msg)
  | .response text =>
    match extract_json text with
    | .error e => .error (.ai e)
    | .ok (Json.arr tasks) => listValidate targetDate tasks
    | .ok _ => .error (.ai (.parsingE "Invalid plan format"))

/-- `AIService.generate_daily_plan`: timeout re-raises (both through the
dedicated clause and the `isinstance` check); every other exception is
wrapped in `GeminiParsingError("Failed to generate plan: " + str(e))`. -/
def generate_daily_plan (out : GenOutcome) (targetDate : ℤ) :
    Except AIErr (List Json) :=
  match gdp_attempt out targetDate with
  | .ok v => .ok v
  | .error .timeoutPy => .error .timeoutE
  | .error (.ai .timeoutE) => .error .timeoutE
  | .error e => .error (.parsingE ("Failed to generate plan: " ++ e.strOf))

/-- the hard-coded fallback feedback string. -/
def fallbackFeedback : String :=
  "오늘 하루도 수고했어! 완벽하지 않아도 괜찮아, 꾸준히 하는 게 중요해."

/-- the `try:` body of `generate_review_feedback`: strip and truncate to
300 characters (no emptiness check on this path). -/
def grf_attempt (out : GenOutcome) : Except PyExc String :=
  match out with
  | .timeout => .error .timeoutPy
  | .failure msg => .error (.generic msg)
  | .response text => .ok (strTake (pyStrip text) 300)

/-- `AIService.generate_review_feedback`: `asyncio.TimeoutError` is caught
first and re-raised as `GeminiTimeoutError`; only the remaining exceptions
fall into the blanket `except Exception` that returns the fallback. -/
def generate_review_feedback (out : GenOutcome) : Except AIErr String :=
  match grf_attempt out with
  | .ok v => .ok v
  | .error .timeoutPy => .error .timeoutE
  | .error _ => .ok fallbackFeedback

/-! ### The prompt format instructions (`_build_parse_prompt`,
`_build_plan_prompt`) -/

/-- the JSON format example embedded in `_build_parse_prompt` (the f-string
braces `\x7b\x7b` render as literal braces). -/
def parsePromptFormatExample : String :=
  "\x7b\n    \"title\": \"일정 제목\",\n    \"start_time\": \"ISO 8601 형식 (예: 2025-01-30T19:00:00+09:00)\",\n    \"end_time\": \"ISO 8601 형식 또는 null\",\n    \"all_day\": false,\n    \"priority\": 3,\n    \"tags\": [\"태그1\"],\n    \"confidence\": 0.95\n\x7d"

/-- the JSON format example embedded in `_build_plan_prompt`. -/
def planPromptFormatExample : String :=
  "[\n  \x7b\n    \"title\": \"작업명\",\n    \"start_time\": \"HH:MM\",\n    \"end_time\": \"HH:MM\",\n    \"reason\": \"이 시간에 배치한 이유\"\n  \x7d\n]"

/-- a value of the shape the parse prompt prescribes: an object with the
seven keys of the example, of the example's types (`end_time` may be
null). -/
def parseShape (j : Json) : Bool :=
  match j with
  | .obj kvs =>
    (match dget kvs "title" with | some (.str _) => true | _ => false) &&
    (match dget kvs "start_time" with | some (.str _) => true | _ => false) &&
    (match dget kvs "end_time" with | some (.str _) => true | some .null => true | _ => false) &&
    (match dget kvs "all_day" with | some (.bool _) => true | _ => false) &&
    (match dget kvs "priority" with | some (.num _) => true | _ => false) &&
    (match dget kvs "tags" with
      | some (.arr ts) => ts.all (fun t => match t with | .str _ => true | _ => false)
      | _ => false) &&
    (match dget kvs "confidence" with | some (.num _) => true | _ => false)
  | _ => false

/-- a value of the shape the plan prompt prescribes: an array of objects
with the four string fields of the example. -/
def planShape (j : Json) : Bool :=
  match j with
  | .arr entries =>
    entries.all (fun e =>
      match e with
      | .obj kvs =>
        (match dget kvs "title" with | some (.str _) => true | _ => false) &&
        (match dget kvs "start_time" with | some (.str _) => true | _ => false) &&
        (match dget kvs "end_time" with | some (.str _) => true | _ => false) &&
        (match dget kvs "reason" with | some (.str _) => true | _ => false)
      | _ => false)
  | _ => false

/-- a model output that wraps a payload in a markdown code fence. -/
def fenceWrap (s : String) : String := "```json\n" ++ s ++ "\n```"

/-! ### Basic facts used across claims -/

theorem string_ne_empty_iff_data {s : String} : s ≠ "" ↔ s.data ≠ [] := by
  constructor
  · intro h hd
    apply h
    cases s with
    | mk data => cases hd; rfl
  · intro h he
    rw [he] at h
    exact h rfl

/-! ### Claim C1 -/

/-- Claim C1, counterexample: when the awaited remote call exceeds its
deadline, `generate_review_feedback` does not return a string at all — the
`except asyncio.TimeoutError` clause re-raises `GeminiTimeoutError`, so an
exception escapes to the caller, contradicting "never fails externally". -/
theorem generate_review_feedback_timeout_cex :
    generate_review_feedback .timeout = .error .timeoutE ∧
    (Except.error AIErr.timeoutE : Except AIErr String) ≠ .ok fallbackFeedback := by
  exact ⟨rfl, by simp⟩

/-- Claim C1, amended: for every behaviour of the remote call other than a
deadline-exceeding delay, `generate_review_feedback` returns a string, and
whenever the call raises, the fixed hard-coded fallback string is returned;
on a deadline-exceeding delay the operation raises `GeminiTimeoutError`
instead. -/
theorem generate_review_feedback_fallback_amended (out : GenOutcome)
    (h : out ≠ GenOutcome.timeout) :
    (∃ s, generate_review_feedback out = .ok s) ∧
    (∀ msg, out = GenOutcome.failure msg →
      generate_review_feedback out = .ok fallbackFeedback) := by
  cases out with
  | timeout => exact absurd rfl h
  | failure msg => exact ⟨⟨fallbackFeedback, rfl⟩, fun _ _ => rfl⟩
  | response t => exact ⟨⟨strTake (pyStrip t) 300, rfl⟩, fun msg hmsg => by cases hmsg⟩

/-- Claim C1, witness for the amended theorem at a concrete failing call. -/
theorem generate_review_feedback_fallback_amended_witness :
    GenOutcome.failure "boom" ≠ GenOutcome.timeout ∧
    generate_review_feedback (.failure "boom") = .ok fallbackFeedback := by
  have h : GenOutcome.failure "boom" ≠ GenOutcome.timeout := by simp
  exact ⟨h, (generate_review_feedback_fallback_amended (.failure "boom") h).2 "boom" rfl⟩

/-! ### Claim C5 -/

/-- Claim C5, counterexample: a remote failure whose message mentions quota
exhaustion but does not contain "429" is classified by
`generate_character_response` as `GeminiResponseError`, not
`GeminiRateLimitError` — this handler only tests `"429" in str(e)`. -/
theorem chat_quota_not_ratelimit_cex :
    generate_character_response (.failure "quota exceeded") = .error .responseE ∧
    (Except.error AIErr.responseE : Except AIErr String) ≠ .error .rateLimitE := by
  exact ⟨rfl, by simp⟩

/-- Claim C5, amended: `generate_character_response` classifies a remote
failure as `GeminiRateLimitError` exactly when the failure's message
contains "429"; any other failure message (including quota-only signals)
yields `GeminiResponseError`. -/
theorem chat_failure_classification_amended (msg : String) :
    generate_character_response (.failure msg) =
      (if containsSub "429" msg then .error .rateLimitE else .error .responseE) := by
  rfl

/-! ### Claim C7 -/

/-- Claim C7, counterexample: a model output of 2 (≤ 500) characters that
carries leading whitespace is not returned unchanged — the code strips
before truncating. -/
theorem chat_whitespace_not_unchanged_cex :
    generate_character_response (.response " a") = .ok "a" ∧ (" a" : String) ≠ "a" := by
  exact ⟨rfl, by decide⟩

/-- Claim C7, amended: restricted to model outputs that are nonempty and
free of leading/trailing whitespace (equal to their own `strip()`), a
501-character output is truncated to exactly 500 characters and an output
of at most 500 characters is returned unchanged. -/
theorem chat_truncation_boundary_amended (t : String)
    (hstrip : pyStrip t = t) (hne : t ≠ "") :
    (t.length = 501 →
      ∃ r, generate_character_response (.response t) = .ok r ∧ r.length = 500) ∧
    (t.length ≤ 500 → generate_character_response (.response t) = .ok t) := by
  have hdata : t.data ≠ [] := string_ne_empty_iff_data.mp hne
  have hlen : (pyStrip t).data.length ≠ 0 := by
    rw [hstrip]
    intro h0
    exact hdata (List.length_eq_zero.mp h0)
  have hcond : ¬ (t = "" ∨ (pyStrip t).data.length = 0) := by
    push_neg
    exact ⟨hne, hlen⟩
  have hbody : gcr_attempt (.response t) = .ok (strTake t 500) := by
    simp only [gcr_attempt]
    rw [if_neg hcond, hstrip]
  have hgcr : generate_character_response (.response t) = .ok (strTake t 500) := by
    unfold generate_character_response
    rw [hbody]
  constructor
  · intro h501
    refine ⟨strTake t 500, hgcr, ?_⟩
    show (t.data.take 500).length = 500
    rw [List.length_take]
    have : t.data.length = 501 := h501
    omega
  · intro hle
    rw [hgcr]
    have htk : t.data.take 500 = t.data := List.take_of_length_le (by exact hle)
    show Except.ok (String.mk (t.data.take 500)) = Except.ok t
    rw [htk]

set_option maxRecDepth 8192 in
/-- Claim C7, witness for the amended theorem: a 501-character output of
letters is truncated to exactly 500, and a 3-character output is returned
unchanged. -/
theorem chat_truncation_boundary_amended_witness :
    pyStrip (String.mk (List.replicate 501 'a')) = String.mk (List.replicate 501 'a') ∧
    (String.mk (List.replicate 501 'a')).length = 501 ∧
    (∃ r, generate_character_response (.response (String.mk (List.replicate 501 'a'))) = .ok r ∧
      r.length = 500) ∧
    generate_character_response (.response "abc") = .ok "abc" := by
  refine ⟨by decide, by decide, ?_, ?_⟩
  · exact (chat_truncation_boundary_amended (String.mk (List.replicate 501 'a'))
      (by decide) (by decide)).1 (by decide)
  · exact (chat_truncation_boundary_amended "abc" (by decide) (by decide)).2 (by decide)

/-! ### Helper lemmas on the parse pipeline -/

theorem parse_wrap_lowconf (c : ℚ)
    (h1 : containsSub "429" (AIErr.lowConfidenceE c).statusDetail = false)
    (h2 : containsSub "quota" (pyLower (AIErr.lowConfidenceE c).statusDetail) = false) :
    parse_wrap (.error (.ai (.lowConfidenceE c))) = .error (.lowConfidenceE c) := by
  unfold parse_wrap
  simp only [PyExc.strOf, h1, h2, Bool.or_self]
  simp

/-! ### Claim C9 -/

/-- Claim C9: when the extracted JSON object has no "confidence" key,
`data.get("confidence", 0)` yields 0, the gate `0 < 0.7` fires, and
`parse_schedule_text` fails with `LowConfidenceError(0)` — an absent
confidence is never accepted. -/
theorem parse_missing_confidence_rejected (text : String)
    (kvs : List (String × Json)) (now : PyDateTime)
    (hx : extract_json text = .ok (Json.obj kvs))
    (hc : dget kvs "confidence" = none) :
    parse_schedule_text (.response text) now = .error (.lowConfidenceE 0) := by
  have hd : dgetD kvs "confidence" (Json.num 0) = Json.num 0 := by
    unfold dgetD
    rw [hc]
    rfl
  have ha : parse_attempt (.response text) now = .error (.ai (.lowConfidenceE 0)) := by
    simp only [parse_attempt]
    rw [hx]
    simp only [hd]
    rfl
  unfold parse_schedule_text
  rw [ha]
  rfl

/-- Claim C9, witness: the bare object output has no confidence key. -/
theorem parse_missing_confidence_rejected_witness :
    extract_json "\x7b\x7d" = .ok (Json.obj []) ∧
    dget ([] : List (String × Json)) "confidence" = none ∧
    parse_schedule_text (.response "\x7b\x7d") ⟨0, none⟩ = .error (.lowConfidenceE 0) := by
  exact ⟨rfl, rfl, parse_missing_confidence_rejected "\x7b\x7d" [] ⟨0, none⟩ rfl rfl⟩

/-! ### Claim C2 -/

/-- Claim C2, counterexample: the extracted confidence −429 is below 0.7,
but the `LowConfidenceError(-429)` it raises renders as
"422: AI confidence too low (-429.00). ...", and the handler's
`"429" in str(e)` test matches first, so the call fails with
`GeminiRateLimitError` instead of the LowConfidence kind. -/
theorem parse_confidence_429_cex :
    parse_schedule_text (.response "\x7b\"confidence\": -429\x7d") ⟨0, none⟩ =
      .error .rateLimitE ∧
    (Except.error AIErr.rateLimitE : Except AIErr Json) ≠
      .error (.lowConfidenceE (-429)) := by
  exact ⟨rfl, by simp⟩

/-- Claim C2, amended: for every extracted confidence value `c < 0.7`,
`parse_schedule_text` fails with `LowConfidenceError` carrying `c` and
never returns a result — provided the rendered error text
("422: AI confidence too low ({c:.2f}). ...") does not itself contain
"429" or "quota", in which case (e.g. `c = −429`) the failure is
reclassified as `GeminiRateLimitError`. -/
theorem parse_low_confidence_amended (text : String)
    (kvs : List (String × Json)) (now : PyDateTime) (c : ℚ)
    (hx : extract_json text = .ok (Json.obj kvs))
    (hc : dgetD kvs "confidence" (Json.num 0) = Json.num c)
    (hlt : c < mkRat 7 10)
    (h429 : containsSub "429" (AIErr.lowConfidenceE c).statusDetail = false)
    (hq : containsSub "quota" (pyLower (AIErr.lowConfidenceE c).statusDetail) = false) :
    parse_schedule_text (.response text) now = .error (.lowConfidenceE c) := by
  have hplt : pyLtQ (Json.num c) (mkRat 7 10) = .ok true := by
    unfold pyLtQ Json.asPyNum
    simp [hlt]
  have ha : parse_attempt (.response text) now = .error (.ai (.lowConfidenceE c)) := by
    simp only [parse_attempt]
    rw [hx]
    simp only [hc, hplt]
    rfl
  unfold parse_schedule_text
  rw [ha]
  exact parse_wrap_lowconf c h429 hq

/-- Claim C2, witness for the amended theorem at confidence 0.5. -/
theorem parse_low_confidence_amended_witness :
    extract_json "\x7b\"confidence\": 0.5\x7d" =
      .ok (Json.obj [("confidence", Json.num (mkRat 1 2))]) ∧
    mkRat 1 2 < mkRat 7 10 ∧
    parse_schedule_text (.response "\x7b\"confidence\": 0.5\x7d") ⟨0, none⟩ =
      .error (.lowConfidenceE (mkRat 1 2)) := by
  refine ⟨rfl, by norm_num, ?_⟩
  exact parse_low_confidence_amended "\x7b\"confidence\": 0.5\x7d"
    [("confidence", Json.num (mkRat 1 2))] ⟨0, none⟩ (mkRat 1 2) rfl rfl (by norm_num) rfl rfl

/-! ### Shape lemmas for the validator -/

theorem dget_dset_ne (kvs : List (String × Json)) (k k' : String) (v : Json)
    (h : k ≠ k') : dget (dset kvs k v) k' = dget kvs k' := by
  induction kvs with
  | nil => simp [dset, dget, h]
  | cons hd tl ih =>
    obtain ⟨k1, v1⟩ := hd
    by_cases hk : k1 = k
    · subst hk
      simp [dset, dget, h]
    · simp [dset, dget, hk, ih]

theorem sanitizeDescription_dget_priority (kvs : List (String × Json)) :
    dget (sanitizeDescription kvs) "priority" = dget kvs "priority" := by
  unfold sanitizeDescription
  split
  · exact dget_dset_ne _ _ _ _ (by decide)
  · rfl

theorem sanitize_dget_priority (kvs : List (String × Json)) :
    dget (sanitizeText kvs) "priority" = dget kvs "priority" := by
  unfold sanitizeText
  rw [sanitizeDescription_dget_priority, dget_dset_ne _ _ _ _ (by decide)]

theorem pyDtLt_error_shape {a b : PyDateTime} {e : PyExc}
    (h : pyDtLt a b = .error e) : e = .generic naiveAwareMsg := by
  unfold pyDtLt at h
  split at h
  · exact (Except.noConfusion h)
  · injection h with h2
    exact h2.symm

theorem pyDtLe_error_shape {a b : PyDateTime} {e : PyExc}
    (h : pyDtLe a b = .error e) : e = .generic naiveAwareMsg := by
  unfold pyDtLe at h
  split at h
  · exact (Except.noConfusion h)
  · injection h with h2
    exact h2.symm

theorem checkStartWindow_error_shape {t now : PyDateTime} {e : PyExc}
    (h : checkStartWindow t now = .error e) :
    (∃ m, e = .ai (.invalidDateTimeE m)) ∨ e = .generic naiveAwareMsg := by
  unfold checkStartWindow at h
  repeat' split at h
  all_goals first
    | exact (Except.noConfusion h)
    | (injection h with h2; exact Or.inl ⟨_, h2.symm⟩)
    | (rename_i e1 heq; injection h with h2;
       exact Or.inr (h2 ▸ pyDtLt_error_shape heq))

theorem validateStartTime_error_shape {kvs : List (String × Json)}
    {now : PyDateTime} {e : PyExc} (h : validateStartTime kvs now = .error e) :
    (∃ m, e = .ai (.invalidDateTimeE m)) ∨ e = .generic naiveAwareMsg := by
  unfold validateStartTime at h
  repeat' split at h
  all_goals first
    | exact (Except.noConfusion h)
    | (injection h with h2; exact Or.inl ⟨_, h2.symm⟩)
    | (rename_i e1 heq; injection h with h2;
       exact h2 ▸ checkStartWindow_error_shape heq)

theorem validateStartTime_ok_shape {kvs : List (String × Json)}
    {now : PyDateTime} {k : List (String × Json)}
    (h : validateStartTime kvs now = .ok k) :
    k = kvs ∨ ∃ v, k = dset kvs "start_time" v := by
  unfold validateStartTime at h
  repeat' split at h
  all_goals first
    | exact (Except.noConfusion h)
    | (injection h with h2; exact Or.inl h2.symm)
    | (injection h with h2; exact Or.inr ⟨_, h2.symm⟩)

theorem validateEndTime_error_shape {o : Json} {kvs : List (String × Json)}
    {e : PyExc} (h : validateEndTime o kvs = .error e) :
    (∃ m, e = .ai (.invalidDateTimeE m)) ∨ e = .generic (mkq "start_time") ∨
      e = .generic naiveAwareMsg := by
  unfold validateEndTime at h
  repeat' split at h
  all_goals first
    | exact (Except.noConfusion h)
    | (injection h with h2; exact Or.inl ⟨_, h2.symm⟩)
    | (injection h with h2; exact Or.inr (Or.inl h2.symm))
    | (rename_i e2 heq; injection h with h2;
       exact Or.inr (Or.inr (h2 ▸ pyDtLe_error_shape heq)))

theorem validateEndTime_ok_shape {o : Json} {kvs : List (String × Json)}
    {k : List (String × Json)} (h : validateEndTime o kvs = .ok k) :
    k = kvs ∨ ∃ v, k = dset kvs "end_time" v := by
  unfold validateEndTime at h
  repeat' split at h
  all_goals first
    | exact (Except.noConfusion h)
    | (injection h with h2; exact Or.inl h2.symm)
    | (injection h with h2; exact Or.inr ⟨_, h2.symm⟩)

theorem pyPriorityCheck_error_shape {v : Json} {e : PyExc}
    (h : pyPriorityCheck v = .error e) : ∃ m, e = .generic m := by
  unfold pyPriorityCheck at h
  split at h
  · exact (Except.noConfusion h)
  · injection h with h2
    exact ⟨_, h2.symm⟩

theorem pyLtQ_error_shape {v : Json} {q : ℚ} {e : PyExc}
    (h : pyLtQ v q = .error e) : ∃ m, e = .generic m := by
  unfold pyLtQ at h
  split at h
  · exact (Except.noConfusion h)
  · injection h with h2
    exact ⟨_, h2.symm⟩

/-- the only exception `_validate_parsed_schedule` can surface as
`InvalidPriorityError` is the priority gate itself firing. -/
theorem validate_pri_error_source {kvs : List (String × Json)} {now : PyDateTime}
    (h : validate_parsed_schedule kvs now = .error (.ai .invalidPriorityE)) :
    pyPriorityCheck (dgetD kvs "priority" (Json.num 3)) = .ok false := by
  unfold validate_parsed_schedule at h
  cases hpc : pyPriorityCheck (dgetD kvs "priority" (Json.num 3)) with
  | error e =>
    exfalso
    obtain ⟨m, hm⟩ := pyPriorityCheck_error_shape hpc
    rw [hpc, hm] at h
    simp at h
  | ok b =>
    cases b with
    | false => rfl
    | true =>
      exfalso
      rw [hpc] at h
      cases hst : validateStartTime kvs now with
      | error e =>
        rcases validateStartTime_error_shape hst with ⟨m, hm⟩ | hm <;>
          (rw [hm] at hst; simp [hst] at h)
      | ok kvs1 =>
        cases hen : validateEndTime (dgetD kvs "start_time" Json.null) kvs1 with
        | error e =>
          rcases validateEndTime_error_shape hen with ⟨m, hm⟩ | hm | hm <;>
            (rw [hm] at hen; simp [hst, hen] at h)
        | ok kvs2 =>
          simp [hst, hen] at h

/-- `parse_wrap` yields `InvalidPriorityError` only from the in-flight
`InvalidPriorityError` itself. -/
theorem parse_wrap_pri_source {r : Except PyExc Json}
    (h : parse_wrap r = .error .invalidPriorityE) :
    r = .error (.ai .invalidPriorityE) := by
  unfold parse_wrap at h
  repeat' split at h
  all_goals first
    | rfl
    | exact (Except.noConfusion h)
    | (injection h with h2; exact (AIErr.noConfusion h2))

/-- `parse_wrap` is the identity on successes, and successes only come from
successes. -/
theorem parse_wrap_ok_source {r : Except PyExc Json} {v : Json}
    (h : parse_wrap r = .ok v) : r = .ok v := by
  unfold parse_wrap at h
  repeat' split at h
  all_goals first
    | (injection h with h2; rw [h2])
    | exact (Except.noConfusion h)

/-! ### Claim C10 -/

/-- Claim C10: when the extracted JSON object has no "priority" key, the
range check runs on the default 3 from `data.get("priority", 3)`, which
lies inside [1,5], so `parse_schedule_text` never fails with
`InvalidPriorityError` on such an output. -/
theorem parse_missing_priority_defaults (text : String)
    (kvs : List (String × Json)) (now : PyDateTime)
    (hx : extract_json text = .ok (Json.obj kvs))
    (hp : dget kvs "priority" = none) :
    parse_schedule_text (.response text) now ≠ .error .invalidPriorityE := by
  intro h
  have hr : parse_attempt (.response text) now = .error (.ai .invalidPriorityE) :=
    parse_wrap_pri_source h
  simp only [parse_attempt] at hr
  rw [hx] at hr
  cases hq : pyLtQ (dgetD kvs "confidence" (Json.num 0)) (mkRat 7 10) with
  | error e =>
    obtain ⟨m, hm⟩ := pyLtQ_error_shape hq
    rw [hm] at hq
    simp [hq] at hr
  | ok b =>
    cases b with
    | true => simp [hq] at hr
    | false =>
      cases hv : validate_parsed_schedule kvs now with
      | error e =>
        simp [hq, hv] at hr
        have hsrc := validate_pri_error_source (by rw [hv, hr])
        have hd : dgetD kvs "priority" (Json.num 3) = Json.num 3 := by
          unfold dgetD
          rw [hp]
          rfl
        rw [hd] at hsrc
        rw [show pyPriorityCheck (Json.num 3) = Except.ok true from rfl] at hsrc
        simp at hsrc
      | ok kvs2 => simp [hq, hv] at hr

/-- Claim C10, witness: the object `{"confidence": 0.9}` has no priority
key, and the parse indeed does not fail with the priority kind. -/
theorem parse_missing_priority_defaults_witness :
    extract_json "\x7b\"confidence\": 0.9\x7d" =
      .ok (Json.obj [("confidence", Json.num (mkRat 9 10))]) ∧
    dget [("confidence", Json.num (mkRat 9 10))] "priority" = none ∧
    parse_schedule_text (.response "\x7b\"confidence\": 0.9\x7d") ⟨0, none⟩ ≠
      .error .invalidPriorityE := by
  exact ⟨rfl, rfl,
    parse_missing_priority_defaults "\x7b\"confidence\": 0.9\x7d"
      [("confidence", Json.num (mkRat 9 10))] ⟨0, none⟩ rfl rfl⟩

/-! ### Claim C8 -/

/-- Claim C8: with extraction successful and the confidence gate passed, a
numeric extracted priority outside [1,5] makes `parse_schedule_text` fail
with `InvalidPriorityError` (the SemanticInvalid priority kind); a priority
inside [1,5] never triggers that failure, and whenever the call returns a
result the stored priority value is unchanged. -/
theorem parse_priority_gate (text : String) (kvs : List (String × Json))
    (now : PyDateTime) (p : ℚ)
    (hx : extract_json text = .ok (Json.obj kvs))
    (hconf : pyLtQ (dgetD kvs "confidence" (Json.num 0)) (mkRat 7 10) = .ok false)
    (hpn : (dgetD kvs "priority" (Json.num 3)).asPyNum = some p) :
    (¬ (1 ≤ p ∧ p ≤ 5) →
      parse_schedule_text (.response text) now = .error .invalidPriorityE) ∧
    ((1 ≤ p ∧ p ≤ 5) →
      parse_schedule_text (.response text) now ≠ .error .invalidPriorityE ∧
      ∀ kvs', parse_schedule_text (.response text) now = .ok (Json.obj kvs') →
        dget kvs' "priority" = dget kvs "priority") := by
  have hpcheck : pyPriorityCheck (dgetD kvs "priority" (Json.num 3)) =
      .ok (decide (1 ≤ p ∧ p ≤ 5)) := by
    unfold pyPriorityCheck
    rw [hpn]
  constructor
  · intro hout
    have hval : validate_parsed_schedule kvs now = .error (.ai .invalidPriorityE) := by
      unfold validate_parsed_schedule
      rw [hpcheck, decide_eq_false hout]
    have ha : parse_attempt (.response text) now = .error (.ai .invalidPriorityE) := by
      simp only [parse_attempt]
      rw [hx]
      simp only [hconf, hval]
    unfold parse_schedule_text
    rw [ha]
    rfl
  · intro hin
    constructor
    · intro h
      have hr : parse_attempt (.response text) now = .error (.ai .invalidPriorityE) :=
        parse_wrap_pri_source h
      simp only [parse_attempt] at hr
      rw [hx] at hr
      cases hv : validate_parsed_schedule kvs now with
      | error e =>
        simp [hconf, hv] at hr
        have hsrc := validate_pri_error_source (by rw [hv, hr])
        rw [hpcheck, decide_eq_true hin] at hsrc
        simp at hsrc
      | ok kvs2 => simp [hconf, hv] at hr
    · intro kvs' hok
      have hr : parse_attempt (.response text) now = .ok (Json.obj kvs') :=
        parse_wrap_ok_source hok
      simp only [parse_attempt] at hr
      rw [hx] at hr
      cases hv : validate_parsed_schedule kvs now with
      | error e => simp [hconf, hv] at hr
      | ok kv2 =>
        simp [hconf, hv] at hr
        have hval := hv
        unfold validate_parsed_schedule at hval
        rw [hpcheck, decide_eq_true hin] at hval
        cases hst : validateStartTime kvs now with
        | error e => simp [hst] at hval
        | ok kvs1 =>
          cases hen : validateEndTime (dgetD kvs "start_time" Json.null) kvs1 with
          | error e => simp [hst, hen] at hval
          | ok kvsE =>
            simp [hst, hen] at hval
            have h1 : dget kvs1 "priority" = dget kvs "priority" := by
              rcases validateStartTime_ok_shape hst with hsh | ⟨v, hsh⟩
              · rw [hsh]
              · rw [hsh, dget_dset_ne _ _ _ _ (by decide)]
            have h2 : dget kvsE "priority" = dget kvs1 "priority" := by
              rcases validateEndTime_ok_shape hen with hsh | ⟨v, hsh⟩
              · rw [hsh]
              · rw [hsh, dget_dset_ne _ _ _ _ (by decide)]
            rw [← hr, ← hval, sanitize_dget_priority, h2, h1]

/-- Claim C8, witness: with confidence 0.9, priority 9 is rejected with the
priority kind, and priority 2 passes through unchanged. -/
theorem parse_priority_gate_witness :
    ¬ ((1 : ℚ) ≤ 9 ∧ (9 : ℚ) ≤ 5) ∧
    parse_schedule_text
      (.response "\x7b\"confidence\": 0.9, \"priority\": 9\x7d") ⟨0, none⟩ =
      .error .invalidPriorityE ∧
    ((1 : ℚ) ≤ 2 ∧ (2 : ℚ) ≤ 5) ∧
    parse_schedule_text
      (.response "\x7b\"confidence\": 0.9, \"priority\": 2\x7d") ⟨0, none⟩ ≠
      .error .invalidPriorityE := by
  refine ⟨by norm_num, ?_, by norm_num, ?_⟩
  · exact (parse_priority_gate "\x7b\"confidence\": 0.9, \"priority\": 9\x7d"
      [("confidence", Json.num (mkRat 9 10)), ("priority", Json.num 9)] ⟨0, none⟩ 9
      rfl rfl rfl).1 (by norm_num)
  · exact ((parse_priority_gate "\x7b\"confidence\": 0.9, \"priority\": 2\x7d"
      [("confidence", Json.num (mkRat 9 10)), ("priority", Json.num 2)] ⟨0, none⟩ 2
      rfl rfl rfl).2 (by norm_num)).1

/-! ### Claim C3 -/

/-- Claim C3: once an output passes extraction, the confidence gate and the
priority gate, a start_time parsing to a datetime comparable with the
reference time (same naive/aware kind, so the window comparisons do not
raise `TypeError`) and earlier than `current_time − 1h` fails the whole
parse with the "Schedule time is in the past" datetime kind, and one later
than `current_time + 365d` fails it with the "too far in the future"
kind — in both cases no result is returned. -/
theorem parse_datetime_window_gate (text : String) (kvs : List (String × Json))
    (now : PyDateTime) (s : String) (t : PyDateTime) (p : ℚ)
    (hx : extract_json text = .ok (Json.obj kvs))
    (hconf : pyLtQ (dgetD kvs "confidence" (Json.num 0)) (mkRat 7 10) = .ok false)
    (hpn : (dgetD kvs "priority" (Json.num 3)).asPyNum = some p)
    (hpr : 1 ≤ p ∧ p ≤ 5)
    (hst : dgetD kvs "start_time" Json.null = Json.str s)
    (hne : s ≠ "")
    (hiso : parseIso (pyReplace s "Z" "+00:00") = some t)
    (hcmp : t.off.isNone = now.off.isNone) :
    (t.abs < now.abs - 3600 →
      parse_schedule_text (.response text) now =
        .error (.invalidDateTimeE "Schedule time is in the past")) ∧
    (now.abs + 365 * 86400 < t.abs →
      parse_schedule_text (.response text) now =
        .error (.invalidDateTimeE "Schedule time is too far in the future")) := by
  have hpcheck : pyPriorityCheck (dgetD kvs "priority" (Json.num 3)) = .ok true := by
    unfold pyPriorityCheck
    rw [hpn]
    simp [hpr]
  have hlt1 : pyDtLt t ⟨now.abs - 3600, now.off⟩ =
      .ok (decide (t.abs < now.abs - 3600)) := by
    unfold pyDtLt
    split
    · rfl
    · rename_i hcon
      exact absurd hcmp hcon
  have hlt2 : pyDtLt ⟨now.abs + 365 * 86400, now.off⟩ t =
      .ok (decide (now.abs + 365 * 86400 < t.abs)) := by
    unfold pyDtLt
    split
    · rfl
    · rename_i hcon
      exact absurd hcmp.symm hcon
  constructor
  · intro hpast
    have hcw : checkStartWindow t now =
        .error (.ai (.invalidDateTimeE "Schedule time is in the past")) := by
      unfold checkStartWindow
      rw [hlt1, decide_eq_true hpast]
    have hvst : validateStartTime kvs now =
        .error (.ai (.invalidDateTimeE "Schedule time is in the past")) := by
      unfold validateStartTime
      simp only [hst]
      rw [if_neg hne, hiso]
      simp only [hcw]
    have hval : validate_parsed_schedule kvs now =
        .error (.ai (.invalidDateTimeE "Schedule time is in the past")) := by
      unfold validate_parsed_schedule
      simp only [hpcheck, hvst]
    have ha : parse_attempt (.response text) now =
        .error (.ai (.invalidDateTimeE "Schedule time is in the past")) := by
      simp only [parse_attempt]
      rw [hx]
      simp only [hconf, hval]
    unfold parse_schedule_text
    rw [ha]
    rfl
  · intro hfut
    have hnp : ¬ (t.abs < now.abs - 3600) := by omega
    have hcw : checkStartWindow t now =
        .error (.ai (.invalidDateTimeE "Schedule time is too far in the future")) := by
      unfold checkStartWindow
      rw [hlt1, decide_eq_false hnp]
      simp only [hlt2, decide_eq_true hfut]
    have hvst : validateStartTime kvs now =
        .error (.ai (.invalidDateTimeE "Schedule time is too far in the future")) := by
      unfold validateStartTime
      simp only [hst]
      rw [if_neg hne, hiso]
      simp only [hcw]
    have hval : validate_parsed_schedule kvs now =
        .error (.ai (.invalidDateTimeE "Schedule time is too far in the future")) := by
      unfold validate_parsed_schedule
      simp only [hpcheck, hvst]
    have ha : parse_attempt (.response text) now =
        .error (.ai (.invalidDateTimeE "Schedule time is too far in the future")) := by
      simp only [parse_attempt]
      rw [hx]
      simp only [hconf, hval]
    unfold parse_schedule_text
    rw [ha]
    rfl

/-- Claim C3, witness: against a naive reference time in mid-2025 (epoch
1750000000, matching the naive `datetime.now()` the endpoint passes), a
naive 2020 start time is rejected as past and a naive 2120 start time as
too far in the future. -/
theorem parse_datetime_window_gate_witness :
    ((1577836800 : ℤ) < 1750000000 - 3600 ∧
      parse_schedule_text
        (.response "\x7b\"confidence\": 0.9, \"start_time\": \"2020-01-01T00:00:00\"\x7d")
        ⟨1750000000, none⟩ =
        .error (.invalidDateTimeE "Schedule time is in the past")) ∧
    ((1750000000 : ℤ) + 365 * 86400 < 4733510400 ∧
      parse_schedule_text
        (.response "\x7b\"confidence\": 0.9, \"start_time\": \"2120-01-01T00:00:00\"\x7d")
        ⟨1750000000, none⟩ =
        .error (.invalidDateTimeE "Schedule time is too far in the future")) := by
  constructor
  · refine ⟨by norm_num, ?_⟩
    exact (parse_datetime_window_gate
      "\x7b\"confidence\": 0.9, \"start_time\": \"2020-01-01T00:00:00\"\x7d"
      [("confidence", Json.num (mkRat 9 10)),
       ("start_time", Json.str "2020-01-01T00:00:00")]
      ⟨1750000000, none⟩ "2020-01-01T00:00:00" ⟨1577836800, none⟩ 3
      rfl rfl rfl (by norm_num) rfl (by decide) rfl rfl).1 (by norm_num)
  · refine ⟨by norm_num, ?_⟩
    exact (parse_datetime_window_gate
      "\x7b\"confidence\": 0.9, \"start_time\": \"2120-01-01T00:00:00\"\x7d"
      [("confidence", Json.num (mkRat 9 10)),
       ("start_time", Json.str "2120-01-01T00:00:00")]
      ⟨1750000000, none⟩ "2120-01-01T00:00:00" ⟨4733510400, none⟩ 3
      rfl rfl rfl (by norm_num) rfl (by decide) rfl rfl).2 (by norm_num)

/-- supporting check for the datetime gate: a mixed pair — naive reference
time, aware start_time — reaches the window comparison, whose `TypeError`
escapes the validator (its `except` lists only `ValueError` and
`AttributeError`) and is wrapped by the blanket handler into
`GeminiParsingError`, not `InvalidDateTimeError`. -/
theorem parse_mixed_awareness_parsing :
    parse_schedule_text
      (.response "\x7b\"confidence\": 0.9, \"start_time\": \"2020-01-01T00:00:00+00:00\"\x7d")
      ⟨1750000000, none⟩ =
      .error (.parsingE ("Failed to parse schedule: " ++ naiveAwareMsg)) := by
  rfl

/-! ### Claim C4 -/

/-- a plan entry lacking a `title` or a `start_time` field (a non-dict
entry lacks both). -/
def planEntryLacksField (j : Json) : Bool :=
  match j with
  | .obj kvs => !(dhas kvs "title") || !(dhas kvs "start_time")
  | _ => true

theorem validate_plan_task_error_kinds {t : Json} {td : ℤ} {e : PyExc}
    (h : validate_plan_task t td = .error e) :
    e ≠ .timeoutPy ∧ e ≠ .ai .timeoutE := by
  unfold validate_plan_task at h
  repeat' split at h
  all_goals first
    | exact (Except.noConfusion h)
    | (injection h with h2; rw [← h2]; exact ⟨by simp, by simp⟩)

theorem validate_plan_task_lacks_error (td : ℤ) {t : Json}
    (h : planEntryLacksField t = true) :
    ∃ e, validate_plan_task t td = .error e := by
  cases t with
  | obj kvs =>
    simp only [planEntryLacksField] at h
    simp only [validate_plan_task]
    rw [if_pos]
    · exact ⟨_, rfl⟩
    · rcases Bool.or_eq_true_iff.mp h with h1 | h1 <;> unfold dhas at h1
      · left
        cases hdg : dget kvs "title" with
        | none => rfl
        | some v => rw [hdg] at h1; simp at h1
      · right
        cases hdg : dget kvs "start_time" with
        | none => rfl
        | some v => rw [hdg] at h1; simp at h1
  | str s =>
    simp only [validate_plan_task]
    split
    · exact ⟨_, rfl⟩
    · exact ⟨_, rfl⟩
  | arr xs =>
    simp only [validate_plan_task]
    split
    · exact ⟨_, rfl⟩
    · exact ⟨_, rfl⟩
  | null => exact ⟨_, rfl⟩
  | bool b => exact ⟨_, rfl⟩
  | num q => exact ⟨_, rfl⟩

theorem listValidate_error_of_mem (td : ℤ) {tasks : List Json} {bad : Json}
    (hmem : bad ∈ tasks) (hbad : planEntryLacksField bad = true) :
    ∃ e, listValidate td tasks = .error e ∧ e ≠ .timeoutPy ∧ e ≠ .ai .timeoutE := by
  induction tasks with
  | nil => cases hmem
  | cons hd tl ih =>
    unfold listValidate
    cases hv : validate_plan_task hd td with
    | error e =>
      refine ⟨e, ?_, validate_plan_task_error_kinds hv⟩
      simp only [hv]
    | ok v =>
      rcases List.mem_cons.mp hmem with rfl | hmem'
      · obtain ⟨e, he⟩ := validate_plan_task_lacks_error td hbad
        rw [hv] at he
        exact (Except.noConfusion he)
      · obtain ⟨e, he, hk⟩ := ih hmem'
        refine ⟨e, ?_, hk⟩
        simp only [hv, he]

/-- Claim C4: if the extracted plan list contains an entry without a title
or without a start_time, `generate_daily_plan` fails with the
`GeminiParsingError` (MalformedOutput) kind — no partial or empty plan is
ever returned. -/
theorem daily_plan_missing_field_rejected (text : String) (tasks : List Json)
    (td : ℤ) (bad : Json)
    (hx : extract_json text = .ok (Json.arr tasks))
    (hmem : bad ∈ tasks)
    (hbad : planEntryLacksField bad = true) :
    ∃ m, generate_daily_plan (.response text) td = .error (.parsingE m) := by
  obtain ⟨e, he, hk1, hk2⟩ := listValidate_error_of_mem td hmem hbad
  have ha : gdp_attempt (.response text) td = .error e := by
    simp only [gdp_attempt]
    rw [hx]
    simp only [he]
  unfold generate_daily_plan
  rw [ha]
  rcases e with _ | ae | m
  · exact absurd rfl hk1
  · rcases ae with _ | _ | d | _ | d | _ | c
    · exact absurd rfl hk2
    · exact ⟨_, rfl⟩
    · exact ⟨_, rfl⟩
    · exact ⟨_, rfl⟩
    · exact ⟨_, rfl⟩
    · exact ⟨_, rfl⟩
    · exact ⟨_, rfl⟩
  · exact ⟨_, rfl⟩

/-- Claim C4, witness: the spec's own scenario `[{"title": "x"}]` (no
start_time) is rejected with the parsing kind. -/
theorem daily_plan_missing_field_rejected_witness :
    extract_json "[\x7b\"title\": \"x\"\x7d]" =
      .ok (Json.arr [Json.obj [("title", Json.str "x")]]) ∧
    planEntryLacksField (Json.obj [("title", Json.str "x")]) = true ∧
    ∃ m, generate_daily_plan (.response "[\x7b\"title\": \"x\"\x7d]") 0 =
      .error (.parsingE m) := by
  refine ⟨rfl, rfl, ?_⟩
  exact daily_plan_missing_field_rejected "[\x7b\"title\": \"x\"\x7d]"
    [Json.obj [("title", Json.str "x")]] 0 (Json.obj [("title", Json.str "x")])
    rfl (List.mem_singleton_self _) rfl

/-! ### Claim C6: fence stripping -/

theorem length_dropWhile_le' (p : Char → Bool) (l : List Char) :
    (l.dropWhile p).length ≤ l.length :=
  (List.dropWhile_suffix p).sublist.length_le

theorem dropWhile_eq_self_of_strip {l : List Char} (h : pyStripList l = l) :
    l.dropWhile isPySpace = l := by
  have h1 : (pyStripList l).length ≤ (l.dropWhile isPySpace).length := by
    unfold pyStripList
    rw [List.length_reverse]
    calc ((l.dropWhile isPySpace).reverse.dropWhile isPySpace).length
        ≤ (l.dropWhile isPySpace).reverse.length := length_dropWhile_le' _ _
      _ = (l.dropWhile isPySpace).length := List.length_reverse _
  rw [h] at h1
  exact List.IsSuffix.eq_of_length (List.dropWhile_suffix isPySpace)
    (le_antisymm (length_dropWhile_le' _ _) h1)

theorem dropWhile_reverse_eq_self_of_strip {l : List Char}
    (h : pyStripList l = l) : l.reverse.dropWhile isPySpace = l.reverse := by
  have h0 := dropWhile_eq_self_of_strip h
  have h2 : pyStripList l = (l.reverse.dropWhile isPySpace).reverse := by
    unfold pyStripList
    rw [h0]
  rw [h] at h2
  have h3 := congrArg List.reverse h2
  rw [List.reverse_reverse] at h3
  exact h3.symm

theorem head_not_space_of_strip {l : List Char} (h : pyStripList l = l) :
    ∀ c cs, l = c :: cs → isPySpace c = false := by
  intro c cs hl
  have h0 := dropWhile_eq_self_of_strip h
  rw [hl, List.dropWhile_cons] at h0
  by_contra hc
  rw [Bool.not_eq_false] at hc
  rw [if_pos hc] at h0
  have := congrArg List.length h0
  have hle := length_dropWhile_le' isPySpace cs
  simp at this
  omega

theorem last_not_space_of_strip {l : List Char} (h : pyStripList l = l) :
    ∀ c, l.getLast? = some c → isPySpace c = false := by
  intro c hc
  have h0 := dropWhile_reverse_eq_self_of_strip h
  have hrev : l.reverse.head? = some c := by
    rw [List.head?_reverse]
    exact hc
  cases hrl : l.reverse with
  | nil => rw [hrl] at hrev; cases hrev
  | cons a as =>
    rw [hrl] at hrev
    injection hrev with ha
    subst ha
    rw [hrl, List.dropWhile_cons] at h0
    by_contra hcs
    rw [Bool.not_eq_false] at hcs
    rw [if_pos hcs] at h0
    have := congrArg List.length h0
    have hle := length_dropWhile_le' isPySpace as
    simp at this
    omega

theorem isSubL_tail_false {n : List Char} {c : Char} {cs : List Char}
    (h : isSubL n (c :: cs) = false) :
    n.isPrefixOf (c :: cs) = false ∧ isSubL n cs = false := by
  rw [isSubL] at h
  exact Bool.or_eq_false_iff.mp h

theorem isSubL_dropWhile_false {n l : List Char} {p : Char → Bool}
    (h : isSubL n l = false) : isSubL n (l.dropWhile p) = false := by
  induction l with
  | nil => simpa [List.dropWhile] using h
  | cons c cs ih =>
    rw [isSubL] at h
    obtain ⟨h1, h2⟩ := Bool.or_eq_false_iff.mp h
    rw [List.dropWhile_cons]
    by_cases hc : p c
    · rw [if_pos hc]
      exact ih h2
    · rw [if_neg hc, isSubL, h1, h2]
      rfl

theorem drop_takeWhile_length (p : Char → Bool) (l : List Char) :
    l.drop (l.takeWhile p).length = l.dropWhile p := by
  induction l with
  | nil => rfl
  | cons c cs ih =>
    rw [List.takeWhile_cons, List.dropWhile_cons]
    by_cases hc : p c
    · rw [if_pos hc, if_pos hc]
      simpa using ih
    · rw [if_neg hc, if_neg hc]
      rfl

theorem dropWhile_append_left {p : Char → Bool} {a : List Char} (b : List Char)
    (h : ∃ x ∈ a, p x = false) :
    (a ++ b).dropWhile p = a.dropWhile p ++ b := by
  induction a with
  | nil =>
    obtain ⟨x, hx, _⟩ := h
    cases hx
  | cons c cs ih =>
    rw [List.cons_append, List.dropWhile_cons, List.dropWhile_cons]
    by_cases hc : p c
    · rw [if_pos hc, if_pos hc]
      apply ih
      obtain ⟨x, hx, hpx⟩ := h
      rcases List.mem_cons.mp hx with rfl | hx'
      · rw [hpx] at hc
        cases hc
      · exact ⟨x, hx', hpx⟩
    · rw [if_neg hc, if_neg hc]
      rfl

theorem fence3_prefix_append_false {l : List Char}
    (hsub : isSubL fence3L l = false) :
    fence3L.isPrefixOf (l ++ nlFenceL) = false := by
  have hbn : (btick == '\n') = false := by decide
  rcases l with _ | ⟨a, _ | ⟨b, _ | ⟨c, r⟩⟩⟩
  · decide
  · simp [fence3L, nlFenceL, List.isPrefixOf, hbn]
  · simp [fence3L, nlFenceL, List.isPrefixOf, hbn]
  · by_contra hcon
    rw [Bool.not_eq_false] at hcon
    have hpre : fence3L.isPrefixOf (a :: b :: c :: r) = true := by
      simp only [fence3L, List.isPrefixOf, List.cons_append,
        Bool.and_eq_true] at hcon ⊢
      exact ⟨hcon.1, hcon.2.1, hcon.2.2.1, trivial⟩
    obtain ⟨h1, _⟩ := isSubL_tail_false hsub
    rw [hpre] at h1
    cases h1

theorem fenceJson_prefix_append_false {l : List Char}
    (hsub : isSubL fence3L l = false) :
    fenceJsonL.isPrefixOf (l ++ nlFenceL) = false := by
  have hbn : (btick == '\n') = false := by decide
  rcases l with _ | ⟨a, _ | ⟨b, _ | ⟨c, r⟩⟩⟩
  · decide
  · simp [fenceJsonL, nlFenceL, List.isPrefixOf, hbn]
  · simp [fenceJsonL, nlFenceL, List.isPrefixOf, hbn]
  · by_contra hcon
    rw [Bool.not_eq_false] at hcon
    have hpre : fence3L.isPrefixOf (a :: b :: c :: r) = true := by
      simp only [fenceJsonL, fence3L, List.isPrefixOf, List.cons_append,
        Bool.and_eq_true] at hcon ⊢
      exact ⟨hcon.1, hcon.2.1, hcon.2.2.1, trivial⟩
    obtain ⟨h1, _⟩ := isSubL_tail_false hsub
    rw [hpre] at h1
    cases h1

theorem stripGo_nil (fuel : Nat) : stripFencesGo fuel [] = [] := by
  cases fuel <;> rfl

theorem stripGo_nlFence (fuel : Nat) : stripFencesGo (fuel + 1) nlFenceL = [] := by
  have h : stripFencesGo (fuel + 1) nlFenceL = stripFencesGo fuel [] := rfl
  rw [h, stripGo_nil]

/-- the core fence-stripping fact: a fence-free, non-space-terminated
payload followed by the closing fence strips back to the payload. -/
theorem stripGo_append_fence (l : List Char) : ∀ fuel : Nat,
    l.length + 4 ≤ fuel →
    isSubL fence3L l = false →
    (∀ c, l.getLast? = some c → isPySpace c = false) →
    stripFencesGo fuel (l ++ nlFenceL) = l := by
  induction l with
  | nil =>
    intro fuel hf _ _
    obtain ⟨f, rfl⟩ : ∃ f, fuel = f + 1 := ⟨fuel - 1, by omega⟩
    rw [List.nil_append]
    exact stripGo_nlFence f
  | cons c cs ih =>
    intro fuel hf hsub hlast
    obtain ⟨f, rfl⟩ : ∃ f, fuel = f + 1 := ⟨fuel - 1, by omega⟩
    have hlastc : isPySpace ((c :: cs).getLast (by simp)) = false := by
      apply hlast
      exact (List.getLast?_eq_getLast _ _).symm ▸ rfl
    have hmem : ∃ x ∈ c :: cs, isPySpace x = false :=
      ⟨(c :: cs).getLast (by simp), List.getLast_mem _, hlastc⟩
    have hA : fenceJsonL.isPrefixOf ((c :: cs) ++ nlFenceL) = false :=
      fenceJson_prefix_append_false hsub
    have hB0 : fence3L.isPrefixOf (((c :: cs) ++ nlFenceL).dropWhile isPySpace) = false := by
      rw [dropWhile_append_left nlFenceL hmem]
      exact fence3_prefix_append_false (isSubL_dropWhile_false hsub)
    have hB : fence3L.isPrefixOf
        (((c :: cs) ++ nlFenceL).drop
          (((c :: cs) ++ nlFenceL).takeWhile isPySpace).length) = false := by
      rw [drop_takeWhile_length]
      exact hB0
    rw [show (c :: cs) ++ nlFenceL = c :: (cs ++ nlFenceL) from rfl] at hA hB ⊢
    rw [stripFencesGo]
    rw [hA]
    simp only [Bool.false_eq_true, if_false]
    rw [hB]
    simp only [Bool.false_eq_true, if_false]
    obtain ⟨_, hsub'⟩ := isSubL_tail_false hsub
    congr 1
    apply ih f (by simp at hf ⊢; omega) hsub'
    intro c' hc'
    apply hlast
    cases cs with
    | nil => cases hc'
    | cons d ds =>
      rw [List.getLast?_cons_cons]
      exact hc'

theorem stripGo_open_fence (f : Nat) (tail : List Char) :
    stripFencesGo (f + 1) ((fenceJsonL ++ ['\n']) ++ tail) =
      stripFencesGo f (tail.dropWhile isPySpace) := by
  show stripFencesGo (f + 1)
      (btick :: (btick :: btick :: 'j' :: 's' :: 'o' :: 'n' :: '\n' :: tail)) = _
  have hc : fenceJsonL.isPrefixOf
      (btick :: (btick :: btick :: 'j' :: 's' :: 'o' :: 'n' :: '\n' :: tail)) = true := by
    simp [fenceJsonL, List.isPrefixOf]
  rw [stripFencesGo, if_pos hc]
  have hd7 : List.drop 7 (btick :: btick :: btick :: 'j' :: 's' :: 'o' :: 'n' :: '\n' :: tail) =
      '\n' :: tail := rfl
  rw [hd7, List.dropWhile_cons, if_pos (by decide)]

/-- Claim C6, counterexample text: a JSON object of exactly the shape the
parse prompt prescribes whose title contains a code fence. -/
def c6cexText : String :=
  "\x7b\"title\": \"```\", \"start_time\": \"2025-01-30T19:00:00+09:00\", \"end_time\": null, \"all_day\": false, \"priority\": 3, \"tags\": [\"x\"], \"confidence\": 0.95\x7d"

/-- the value `c6cexText` decodes to. -/
def c6cexOrig : Json :=
  Json.obj [("title", Json.str "```"),
    ("start_time", Json.str "2025-01-30T19:00:00+09:00"),
    ("end_time", Json.null), ("all_day", Json.bool false),
    ("priority", Json.num 3), ("tags", Json.arr [Json.str "x"]),
    ("confidence", Json.num (mkRat 19 20))]

/-- the value the extractor actually recovers from the fenced `c6cexText`:
the in-string fence has been deleted. -/
def c6cexMangled : Json :=
  Json.obj [("title", Json.str ""),
    ("start_time", Json.str "2025-01-30T19:00:00+09:00"),
    ("end_time", Json.null), ("all_day", Json.bool false),
    ("priority", Json.num 3), ("tags", Json.arr [Json.str "x"]),
    ("confidence", Json.num (mkRat 19 20))]

set_option maxRecDepth 100000 in
/-- Claim C6, counterexample: a prescribed-shape JSON text whose title
string contains "```" is not recovered unchanged — the regex removes the
fence characters inside the string, so the extractor returns a different
value. -/
theorem extract_roundtrip_backtick_cex :
    parseShape c6cexOrig = true ∧
    jsonParse c6cexText = some c6cexOrig ∧
    extract_json (fenceWrap c6cexText) = .ok c6cexMangled ∧
    c6cexMangled ≠ c6cexOrig := by
  refine ⟨rfl, rfl, rfl, ?_⟩
  intro h
  have h2 := congrArg (fun j =>
    match j with
    | Json.obj kvs => pystr (dgetD kvs "title" Json.null)
    | _ => "") h
  exact absurd h2 (by decide)

/-- Claim C6, amended: any JSON text of the shape prescribed by the prompt
format instructions that contains no "```" and no leading or trailing
whitespace is recovered unchanged by the Response Extractor after being
wrapped in a markdown code fence; a text with a fence inside a string
value (see the counterexample) is mangled. -/
theorem extract_roundtrip_amended (s : String) (v : Json)
    (_hshape : parseShape v = true ∨ planShape v = true)
    (hparse : jsonParse s = some v)
    (hnf : containsSub "```" s = false)
    (htrim : pyStrip s = s) :
    extract_json (fenceWrap s) = .ok v := by
  have hdata : pyStripList s.data = s.data := congrArg String.data htrim
  have hsub : isSubL fence3L s.data = false := by
    have he : fence3L = ("```" : String).data := by decide
    rw [he]
    exact hnf
  have hne : s.data ≠ [] := by
    intro h0
    have hnone : jsonParse s = none := by
      unfold jsonParse
      rw [h0]
      rfl
    rw [hparse] at hnone
    cases hnone
  obtain ⟨c, cs, hcons⟩ : ∃ c cs, s.data = c :: cs := by
    cases hd : s.data with
    | nil => exact absurd hd hne
    | cons c cs => exact ⟨c, cs, rfl⟩
  have hheadns : isPySpace c = false := head_not_space_of_strip hdata c cs hcons
  have hlastns : ∀ c', s.data.getLast? = some c' → isPySpace c' = false :=
    last_not_space_of_strip hdata
  have hwrap : (fenceWrap s).data = (fenceJsonL ++ ['\n']) ++ (s.data ++ nlFenceL) := by
    unfold fenceWrap
    rw [String.data_append, String.data_append]
    have h1 : ("```json\n" : String).data = fenceJsonL ++ ['\n'] := by decide
    have h2 : ("\n```" : String).data = nlFenceL := by decide
    rw [h1, h2, List.append_assoc]
  have hdw : (s.data ++ nlFenceL).dropWhile isPySpace = s.data ++ nlFenceL := by
    rw [hcons, List.cons_append, List.dropWhile_cons, if_neg (by simp [hheadns])]
  have hstrip : stripFencesList (fenceWrap s).data = s.data := by
    unfold stripFencesList
    rw [hwrap]
    have hlen2 : ((fenceJsonL ++ ['\n']) ++ (s.data ++ nlFenceL)).length =
        (s.data.length + 11) + 1 := by
      simp [fenceJsonL, nlFenceL]
    rw [hlen2, stripGo_open_fence, hdw]
    exact stripGo_append_fence s.data (s.data.length + 11) (by omega) hsub hlastns
  unfold extract_json
  rw [hstrip, hdata]
  have hmk : String.mk s.data = s := rfl
  rw [hmk, hparse]

/-- the value the parse prompt's own format example decodes to. -/
def c6wVal : Json :=
  Json.obj [("title", Json.str "일정 제목"),
    ("start_time", Json.str "ISO 8601 형식 (예: 2025-01-30T19:00:00+09:00)"),
    ("end_time", Json.str "ISO 8601 형식 또는 null"),
    ("all_day", Json.bool false), ("priority", Json.num 3),
    ("tags", Json.arr [Json.str "태그1"]),
    ("confidence", Json.num (mkRat 19 20))]

set_option maxRecDepth 100000 in
/-- Claim C6, witness for the amended theorem at the parse prompt's own
format example. -/
theorem extract_roundtrip_amended_witness :
    parseShape c6wVal = true ∧
    jsonParse parsePromptFormatExample = some c6wVal ∧
    containsSub "```" parsePromptFormatExample = false ∧
    pyStrip parsePromptFormatExample = parsePromptFormatExample ∧
    extract_json (fenceWrap parsePromptFormatExample) = .ok c6wVal := by
  refine ⟨rfl, rfl, rfl, rfl, ?_⟩
  exact extract_roundtrip_amended parsePromptFormatExample c6wVal
    (Or.inl rfl) rfl rfl rfl

end SchoolButler











